import Mathlib

/-!
# Verification of the weekender airline-query program

A shallow embedding of `src/airline.py` (the `FlightInfo` record, the
`Weekender` filter, the `AirlineRegistry` metaclass state, the shared
`AirlineBase` adapter orchestration, and the `Southwest` / `JetBlue`
row-extraction logic), together with theorems settling the frozen claims.

Python strings are modelled as `List Char`, Python exceptions as
`Except PyError`, Python `datetime.date` values as day ordinals (`Nat`),
and Python `datetime.time` values as hour/minute pairs.  Dictionaries that
the code mutates through object references (`self.fixed_data` and its
per-request copy) live in an explicit store of dictionaries addressed by
`Nat` references, so that aliasing and the effect of `dict.copy()` /
`dict.update()` are represented faithfully.  External collaborators (the
HTTP session, the HTML parse tree, `date.strftime`) are oracle functions
carried by each adapter value.
-/

/-- The Python exception classes the embedded code can raise. -/
inductive PyError where
  | typeError
  | valueError
  | keyError
  | indexError
deriving DecidableEq, Repr

/-- A Python `datetime.date`, abstracted to a day ordinal; adding one day
is `+ 1` (this models `date + timedelta(days=1)`). -/
abbrev PyDate := Nat

/-- A Python `datetime.time` as constructed by the code: `time(hour=h, minute=m)`
with the seconds and microseconds left at zero. -/
structure PyTime where
  hour : Nat
  minute : Nat
deriving DecidableEq, Repr

/-- Python `time` comparison restricted to the fields the program sets:
lexicographic on (hour, minute). -/
def timeLtB (a b : PyTime) : Bool :=
  a.hour < b.hour || (a.hour == b.hour && a.minute < b.minute)

/-- The `datetime.time(hour=..., minute=...)` constructor, which raises
`ValueError` outside the ranges 0..23 / 0..59. -/
def mkTime (h m : Int) : Except PyError PyTime :=
  if 0 ≤ h ∧ h ≤ 23 ∧ 0 ≤ m ∧ m ≤ 59 then
    .ok ⟨h.toNat, m.toNat⟩
  else
    .error .valueError

/-- A dynamically-typed Python value, as stored in `FlightInfo` slots and
request-data dictionaries. -/
inductive PyVal where
  | vstr (s : List Char)
  | vint (n : Int)
  | vbool (b : Bool)
  | vdate (d : PyDate)
  | vtime (t : PyTime)
  | vnone
deriving DecidableEq, Repr

/-- The `FlightInfo` namedtuple.  Field order is exactly that of the source
declaration: `origin, destination, early, depart_date, depart_time,
arrive_time, flight_no, fare`.  The slots are untyped in Python, so each
holds a `PyVal`. -/
structure FlightInfo where
  origin : List Char
  destination : List Char
  early : PyVal
  depart_date : PyVal
  depart_time : PyVal
  arrive_time : PyVal
  flight_no : PyVal
  fare : PyVal
deriving DecidableEq, Repr

deriving instance DecidableEq for Except

/-- Python `str.split(sep)` for a one-character separator: keeps empty
groups, and `\x22\x22.split(sep)` gives one empty group. -/
def splitChar (sep : Char) : List Char → List (List Char)
  | [] => [[]]
  | c :: cs =>
    let r := splitChar sep cs
    if c = sep then [] :: r
    else
      match r with
      | [] => [[c]]
      | g :: gs => (c :: g) :: gs

def isDigitChar (c : Char) : Bool := '0' ≤ c && c ≤ '9'

def digitsToNat (s : List Char) : Nat :=
  s.foldl (fun n c => n * 10 + (c.toNat - 48)) 0

/-- Python `int(s)` on the strings this program feeds it: an optional
leading minus sign followed by decimal digits; anything else (including
the empty string) raises `ValueError`. -/
def pyInt (s : List Char) : Except PyError Int :=
  match s with
  | '-' :: rest =>
      if rest ≠ [] ∧ rest.all isDigitChar then .ok (-(digitsToNat rest : Int))
      else .error .valueError
  | _ =>
      if s ≠ [] ∧ s.all isDigitChar then .ok (digitsToNat s : Int)
      else .error .valueError

/-- Python `str.strip(chars)`: remove leading and trailing characters that
belong to `chars`. -/
def stripChars (chars : List Char) (s : List Char) : List Char :=
  ((s.dropWhile (fun c => chars.contains c)).reverse.dropWhile
      (fun c => chars.contains c)).reverse

/-- Python `sep.join(parts)` for a one-character separator. -/
def joinSep (sep : Char) : List (List Char) → List Char
  | [] => []
  | [x] => x
  | x :: xs => x ++ sep :: joinSep sep xs

/-- Modelled from the spec: `util.flatten` is imported from the repository's
`util` module, which is not present under `src/`.  Per the spec, results of
the sub-queries "flatten upward" / are "concatenated" "preserving
pair-iteration order", so `flatten` concatenates a list of lists in order. -/
def flatten {α : Type} (xss : List (List α)) : List α := xss.flatten

/-- Modelled from the spec: `util.meridian` is imported from the repository's
`util` module, which is not present under `src/`.  Per the spec it converts a
12-hour-clock hour with an AM/PM meridian indicator to a 24-hour hour:
"noon and midnight must map to hour 12→12 and 12 AM→0 per standard meridian
conversion rules", hours 1–11 with AM pass through unchanged, and
"1:05 PM → hour 13" so PM hours other than 12 gain twelve.  The spec does
not describe other indicators; the model passes the hour through for them. -/
def meridian (hour : Int) (indicator : List Char) : Int :=
  if indicator = "PM".data then (if hour = 12 then 12 else hour + 12)
  else if indicator = "AM".data then (if hour = 12 then 0 else hour)
  else hour

/-- `AirlineBase._parse_time_string`: split on a space into number part and
meridian indicator, split the numbers on a colon, convert both to `int`,
apply `meridian`, and build a `time`.  A string that does not split into
exactly two parts at either stage makes the tuple unpacking raise
`ValueError`. -/
def parse_time_string (s : List Char) : Except PyError PyTime :=
  match splitChar ' ' s with
  | [numbers, indicator] =>
    match splitChar ':' numbers with
    | [hs, ms] => do
      let h ← pyInt hs
      let m ← pyInt ms
      mkTime (meridian h indicator) m
    | _ => .error .valueError
  | _ => .error .valueError

/-- Digit characters for building concrete test strings. -/
def digitChar (n : Nat) : Char :=
  match n with
  | 0 => '0' | 1 => '1' | 2 => '2' | 3 => '3' | 4 => '4'
  | 5 => '5' | 6 => '6' | 7 => '7' | 8 => '8' | 9 => '9'
  | _ => '*'

/-- The decimal rendering of an hour `1..11` as it appears in provider text. -/
def hourDigits (h : Nat) : List Char :=
  if h < 10 then [digitChar h] else ['1', digitChar (h - 10)]

/-- A two-digit minute field `MM`. -/
def minuteDigits (m : Nat) : List Char :=
  [digitChar (m / 10), digitChar (m % 10)]

/-- A Python `dict` with string keys, as a key-value association list. -/
abbrev Dict := List (List Char × PyVal)

/-- `d[k] = v` on a dict value: overwrite an existing key in place,
otherwise append the new key at the end (Python insertion order). -/
def dictSet (d : Dict) (k : List Char) (v : PyVal) : Dict :=
  if d.any (fun kv => kv.1 == k) then
    d.map (fun kv => if kv.1 == k then (k, v) else kv)
  else d ++ [(k, v)]

/-- Python `dict.update` with the given key-value pairs, in order. -/
def dictUpdate (d : Dict) : List (List Char × PyVal) → Dict
  | [] => d
  | (k, v) :: rest => dictUpdate (dictSet d k v) rest

/-- The heap of dict objects reachable by reference: `self.fixed_data` and
the per-request copies live here, addressed by `Nat` references. -/
abbrev Store := List Dict

/-- Dereference a dict; a dangling reference yields the empty dict (our
theorems only ever use valid references). -/
def getStore (σ : Store) (r : Nat) : Dict := σ.getD r []

/-- Overwrite the dict object at reference `r`. -/
def setStore (σ : Store) (r : Nat) (d : Dict) : Store := σ.set r d

theorem getStore_append_self (σ : Store) (d : Dict) :
    getStore (σ ++ [d]) σ.length = d := by
  induction σ with
  | nil => rfl
  | cons c σ ih => simp only [List.cons_append, List.length_cons]; exact ih

theorem getStore_append_lt (σ l : Store) (r : Nat) (h : r < σ.length) :
    getStore (σ ++ l) r = getStore σ r := by
  induction σ generalizing r with
  | nil => simp at h
  | cons c σ ih =>
    cases r with
    | zero => rfl
    | succ n => simpa [getStore, List.getD] using ih n (by simpa using h)

theorem length_setStore (σ : Store) (r : Nat) (d : Dict) :
    (setStore σ r d).length = σ.length := by
  simp [setStore]

theorem getStore_set_self (σ : Store) (r : Nat) (d : Dict) (h : r < σ.length) :
    getStore (setStore σ r d) r = d := by
  induction σ generalizing r with
  | nil => simp at h
  | cons c σ ih =>
    cases r with
    | zero => rfl
    | succ n => simpa [getStore, setStore, List.getD] using ih n (by simpa using h)

theorem getStore_set_ne (σ : Store) (r i : Nat) (d : Dict) (h : i ≠ r) :
    getStore (setStore σ i d) r = getStore σ r := by
  induction σ generalizing r i with
  | nil => rfl
  | cons c σ ih =>
    cases i with
    | zero =>
      cases r with
      | zero => exact absurd rfl h
      | succ m => rfl
    | succ n =>
      cases r with
      | zero => rfl
      | succ m =>
        simpa [getStore, setStore, List.getD] using
          ih m n (fun hh => h (by rw [hh]))

/-- The second store is an evolution of the first: it may have grown, but
every dict object that already existed is unchanged. -/
def StoreExtends (σ σ' : Store) : Prop :=
  σ.length ≤ σ'.length ∧ ∀ r, r < σ.length → getStore σ' r = getStore σ r

theorem storeExtends_refl (σ : Store) : StoreExtends σ σ :=
  ⟨le_refl _, fun _ _ => rfl⟩

theorem storeExtends_trans {σ1 σ2 σ3 : Store}
    (h12 : StoreExtends σ1 σ2) (h23 : StoreExtends σ2 σ3) :
    StoreExtends σ1 σ3 := by
  refine ⟨le_trans h12.1 h23.1, fun r hr => ?_⟩
  rw [h23.2 r (lt_of_lt_of_le hr h12.1), h12.2 r hr]

/-- Python's dictionary lookup `xs[k]`, raising `KeyError` when absent.
Used both for `ConfigParser` section/option access and association lists. -/
def assocGet {β : Type} (xs : List (List Char × β)) (k : List Char) :
    Except PyError β :=
  match xs.find? (fun kv => kv.1 == k) with
  | some kv => .ok kv.2
  | none => .error .keyError

/-- A `ConfigParser` as read by the program: named sections, each mapping
option names to raw strings. -/
abbrev Config := List (List Char × List (List Char × List Char))

/-- A Python list comprehension `[f x for x in xs]` where `f` may raise:
evaluates left to right and propagates the first exception. -/
def mapExcept {α β : Type} (g : α → Except PyError β) :
    List α → Except PyError (List β)
  | [] => .ok []
  | x :: xs =>
    match g x with
    | .error e => .error e
    | .ok y =>
      match mapExcept g xs with
      | .error e => .error e
      | .ok ys => .ok (y :: ys)

theorem mapExcept_error_of_mem {α β : Type} (g : α → Except PyError β)
    (xs : List α) (x : α) (hx : x ∈ xs) (err : PyError)
    (herr : g x = .error err) :
    ∃ e, mapExcept g xs = .error e := by
  induction xs with
  | nil => cases hx
  | cons y ys ih =>
    rcases List.mem_cons.mp hx with h | h
    · subst h
      exact ⟨err, by simp [mapExcept, herr]⟩
    · cases hy : g y with
      | error e => exact ⟨e, by simp [mapExcept, hy]⟩
      | ok v =>
        obtain ⟨e, he⟩ := ih h
        exact ⟨e, by simp [mapExcept, hy, he]⟩

/-- Left-to-right evaluation of a list of store-threading calls, stopping
at the first exception (the store keeps the mutations made so far). -/
def mapMStore {α β : Type} (f : Store → α → Except PyError β × Store) :
    Store → List α → Except PyError (List β) × Store
  | σ, [] => (.ok [], σ)
  | σ, x :: xs =>
    match f σ x with
    | (.error e, σ') => (.error e, σ')
    | (.ok y, σ') =>
      match mapMStore f σ' xs with
      | (.error e, σ'') => (.error e, σ'')
      | (.ok ys, σ'') => (.ok (y :: ys), σ'')

theorem mapMStore_collapse {α β : Type}
    (f : Store → α → Except PyError β × Store) (g : α → Except PyError β)
    (σ0 : Store) (xs : List α)
    (h : ∀ σ' x, x ∈ xs → StoreExtends σ0 σ' →
      (f σ' x).1 = g x ∧ StoreExtends σ' (f σ' x).2) :
    ∀ σ, StoreExtends σ0 σ →
      (mapMStore f σ xs).1 = mapExcept g xs ∧
      StoreExtends σ0 (mapMStore f σ xs).2 := by
  induction xs with
  | nil => intro σ hσ; exact ⟨rfl, hσ⟩
  | cons x xs ih =>
    intro σ hσ
    have hx := h σ x (List.mem_cons_self x xs) hσ
    have hnext : StoreExtends σ0 (f σ x).2 := storeExtends_trans hσ hx.2
    have ih' := ih (fun σ' y hy hext => h σ' y (List.mem_cons_of_mem x hy) hext)
      (f σ x).2 hnext
    cases hfx : f σ x with
    | mk res σ' =>
      cases res with
      | error e =>
        have : g x = .error e := by rw [← hx.1, hfx]
        constructor
        · simp [mapMStore, hfx, mapExcept, this]
        · simp only [mapMStore, hfx]
          rw [hfx] at hnext
          exact hnext
      | ok y =>
        have hgx : g x = .ok y := by rw [← hx.1, hfx]
        rw [hfx] at ih'
        cases hrec : mapMStore f σ' xs with
        | mk res2 σ'' =>
          rw [hrec] at ih'
          cases res2 with
          | error e =>
            constructor
            · simp [mapMStore, hfx, hrec, mapExcept, hgx, ← ih'.1]
            · simpa [mapMStore, hfx, hrec] using ih'.2
          | ok ys =>
            constructor
            · simp [mapMStore, hfx, hrec, mapExcept, hgx, ← ih'.1]
            · simpa [mapMStore, hfx, hrec] using ih'.2

/-- The `dynamic_fields` class attribute: all three concrete adapters
declare exactly the keys `origin`, `destination` and `formatted_date`. -/
structure DynFields where
  origin : List Char
  destination : List Char
  formatted_date : List Char

/-- One registered adapter class, parametrised by its provider-specific
row type `ρ`.  `fixedDataRef` is the reference to the class-level
`fixed_data` dict; `strftimeFn` models `date.strftime(self.date_format)`;
`netFn` models the subclass `_request_single` network exchange (it receives
the merged request dict by value and yields raw rows); `extractFn` models
the subclass `extract_row_to_flightinfo` (which may raise). -/
structure AdapterClass (ρ : Type) where
  className : List Char
  fixedDataRef : Nat
  dynamic_fields : DynFields
  strftimeFn : PyDate → List Char
  netFn : List Char → List Char → PyDate → Bool → Dict →
    Except PyError (List ρ)
  extractFn : ρ → List Char → List Char → PyDate → Bool →
    Except PyError (Option FlightInfo)

/-- An instantiated adapter: `AirlineBase.__init__` stores the shared
config on the instance (the network session it also creates is part of the
external transport, carried inside `netFn`). -/
structure AdapterInst (ρ : Type) where
  className : List Char
  config : Config
  fixedDataRef : Nat
  dynamic_fields : DynFields
  strftimeFn : PyDate → List Char
  netFn : List Char → List Char → PyDate → Bool → Dict →
    Except PyError (List ρ)
  extractFn : ρ → List Char → List Char → PyDate → Bool →
    Except PyError (Option FlightInfo)

/-- Calling a registered class on the shared config:
`airline(config)` runs `AirlineBase.__init__`. -/
def constructAdapter {ρ : Type} (c : AdapterClass ρ) (config : Config) :
    AdapterInst ρ :=
  { className := c.className
    config := config
    fixedDataRef := c.fixedDataRef
    dynamic_fields := c.dynamic_fields
    strftimeFn := c.strftimeFn
    netFn := c.netFn
    extractFn := c.extractFn }

/-- The `origins` property: `self.config[self.__class__.__name__]['origins'].split(',')`. -/
def origins {ρ : Type} (a : AdapterInst ρ) :
    Except PyError (List (List Char)) := do
  let sec ← assocGet a.config a.className
  let s ← assocGet sec "origins".data
  pure (splitChar ',' s)

/-- The `destinations` property. -/
def destinations {ρ : Type} (a : AdapterInst ρ) :
    Except PyError (List (List Char)) := do
  let sec ← assocGet a.config a.className
  let s ← assocGet sec "destinations".data
  pure (splitChar ',' s)

/-- `itertools.product(xs, ys)` as a list of pairs. -/
def pyProduct {α β : Type} (xs : List α) (ys : List β) : List (α × β) :=
  xs.flatMap (fun x => ys.map (fun y => (x, y)))

theorem length_pyProduct {α β : Type} (xs : List α) (ys : List β) :
    (pyProduct xs ys).length = xs.length * ys.length := by
  induction xs with
  | nil => simp [pyProduct]
  | cons x xs ih =>
    simp only [pyProduct, List.flatMap_cons, List.length_append,
      List.length_map, List.length_cons] at *
    rw [ih]; ring

/-- `AirlineBase.request_single(origin, destination, date, early)`:
format the date, copy the fixed-field template (`data = self.fixed_data.copy()`
allocates a fresh dict object), merge the three dynamic fields into the
copy (`data.update({...})` mutates the fresh object in place), run the
provider exchange, extract every row, and drop the absent results. -/
def request_single {ρ : Type} (σ : Store) (a : AdapterInst ρ)
    (origin destination : List Char) (date : PyDate) (early : Bool) :
    Except PyError (List FlightInfo) × Store :=
  let formatted_date := a.strftimeFn date
  let dataRef := σ.length
  let σ1 := σ ++ [getStore σ a.fixedDataRef]
  let σ2 := setStore σ1 dataRef (dictUpdate (getStore σ1 dataRef)
      [(a.dynamic_fields.origin, .vstr origin),
       (a.dynamic_fields.destination, .vstr destination),
       (a.dynamic_fields.formatted_date, .vstr formatted_date)])
  match a.netFn origin destination date early (getStore σ2 dataRef) with
  | .error e => (.error e, σ2)
  | .ok rows =>
    match mapExcept (fun row => a.extractFn row origin destination date early)
        rows with
    | .error e => (.error e, σ2)
    | .ok fis => (.ok (fis.filterMap id), σ2)

/-- The store-free value computed by `request_single` once the template
content `tmpl` it reads from the heap is fixed. -/
def request_single_pure {ρ : Type} (tmpl : Dict) (a : AdapterInst ρ)
    (origin destination : List Char) (date : PyDate) (early : Bool) :
    Except PyError (List FlightInfo) :=
  let data := dictUpdate tmpl
      [(a.dynamic_fields.origin, .vstr origin),
       (a.dynamic_fields.destination, .vstr destination),
       (a.dynamic_fields.formatted_date, .vstr (a.strftimeFn date))]
  match a.netFn origin destination date early data with
  | .error e => .error e
  | .ok rows =>
    match mapExcept (fun row => a.extractFn row origin destination date early)
        rows with
    | .error e => .error e
    | .ok fis => .ok (fis.filterMap id)

theorem request_single_fst {ρ : Type} (σ : Store) (a : AdapterInst ρ)
    (o d : List Char) (dt : PyDate) (e : Bool) :
    (request_single σ a o d dt e).1
      = request_single_pure (getStore σ a.fixedDataRef) a o d dt e := by
  have h1 : getStore (σ ++ [getStore σ a.fixedDataRef]) σ.length
      = getStore σ a.fixedDataRef := getStore_append_self σ _
  have h2 : σ.length < (σ ++ [getStore σ a.fixedDataRef]).length := by
    simp
  dsimp only [request_single, request_single_pure]
  rw [h1, getStore_set_self _ _ _ h2]
  cases hnet : a.netFn o d dt e (dictUpdate (getStore σ a.fixedDataRef)
      [(a.dynamic_fields.origin, .vstr o),
       (a.dynamic_fields.destination, .vstr d),
       (a.dynamic_fields.formatted_date, .vstr (a.strftimeFn dt))]) with
  | error err => simp [hnet]
  | ok rows =>
    cases hmap : mapExcept (fun row => a.extractFn row o d dt e) rows with
    | error err => simp [hnet, hmap]
    | ok fis => simp [hnet, hmap]

theorem request_single_extends {ρ : Type} (σ : Store) (a : AdapterInst ρ)
    (o d : List Char) (dt : PyDate) (e : Bool) :
    StoreExtends σ (request_single σ a o d dt e).2 := by
  have hlen : (setStore (σ ++ [getStore σ a.fixedDataRef]) σ.length
      (dictUpdate (getStore (σ ++ [getStore σ a.fixedDataRef]) σ.length)
        [(a.dynamic_fields.origin, .vstr o),
         (a.dynamic_fields.destination, .vstr d),
         (a.dynamic_fields.formatted_date, .vstr (a.strftimeFn dt))])).length
      = σ.length + 1 := by
    rw [length_setStore]; simp
  have hget : ∀ r, r < σ.length →
      getStore (setStore (σ ++ [getStore σ a.fixedDataRef]) σ.length
        (dictUpdate (getStore (σ ++ [getStore σ a.fixedDataRef]) σ.length)
          [(a.dynamic_fields.origin, .vstr o),
           (a.dynamic_fields.destination, .vstr d),
           (a.dynamic_fields.formatted_date, .vstr (a.strftimeFn dt))])) r
        = getStore σ r := by
    intro r hr
    rw [getStore_set_ne _ _ _ _ (Nat.ne_of_gt hr)]
    exact getStore_append_lt σ _ r hr
  dsimp only [request_single]
  constructor
  · cases hnet : a.netFn o d dt e (getStore (setStore
        (σ ++ [getStore σ a.fixedDataRef]) σ.length
        (dictUpdate (getStore (σ ++ [getStore σ a.fixedDataRef]) σ.length)
          [(a.dynamic_fields.origin, .vstr o),
           (a.dynamic_fields.destination, .vstr d),
           (a.dynamic_fields.formatted_date, .vstr (a.strftimeFn dt))]))
        σ.length) with
    | error err => simp only [hnet]; omega
    | ok rows =>
      simp only [hnet]
      cases hmap : mapExcept
          (fun row => a.extractFn row o d dt e) rows with
      | error err => simp only [hmap]; omega
      | ok fis => simp only [hmap]; omega
  · intro r hr
    cases hnet : a.netFn o d dt e (getStore (setStore
        (σ ++ [getStore σ a.fixedDataRef]) σ.length
        (dictUpdate (getStore (σ ++ [getStore σ a.fixedDataRef]) σ.length)
          [(a.dynamic_fields.origin, .vstr o),
           (a.dynamic_fields.destination, .vstr d),
           (a.dynamic_fields.formatted_date, .vstr (a.strftimeFn dt))]))
        σ.length) with
    | error err => simp only [hnet]; exact hget r hr
    | ok rows =>
      simp only [hnet]
      cases hmap : mapExcept
          (fun row => a.extractFn row o d dt e) rows with
      | error err => simp only [hmap]; exact hget r hr
      | ok fis => simp only [hmap]; exact hget r hr

/-- The cartesian product built at the top of `AirlineBase.request_all`:
`itertools.product(self.destinations, self.origins)` when `reverse` is set,
`itertools.product(self.origins, self.destinations)` otherwise.  Evaluating
the two properties raises `KeyError` when the provider's config section or
option is missing. -/
def airline_pairs {ρ : Type} (a : AdapterInst ρ) (reverse : Bool) :
    Except PyError (List (List Char × List Char)) :=
  if reverse then
    match destinations a with
    | .error e => .error e
    | .ok ds =>
      match origins a with
      | .error e => .error e
      | .ok os => .ok (pyProduct ds os)
  else
    match origins a with
    | .error e => .error e
    | .ok os =>
      match destinations a with
      | .error e => .error e
      | .ok ds => .ok (pyProduct os ds)

/-- `AirlineBase.request_all(date, reverse, early)`: one `request_single`
call per pair of the product, results flattened in pair order.  (The call
`self.request_single(origin, destination, date, early=early)` passes all
four required arguments, so it binds directly.) -/
def request_all {ρ : Type} (σ : Store) (a : AdapterInst ρ) (date : PyDate)
    (reverse early : Bool) : Except PyError (List FlightInfo) × Store :=
  match airline_pairs a reverse with
  | .error e => (.error e, σ)
  | .ok pairs =>
    match mapMStore (fun σ' p => request_single σ' a p.1 p.2 date early)
        σ pairs with
    | (.error e, σ') => (.error e, σ')
    | (.ok results, σ') => (.ok (flatten results), σ')

/-- The store-free value of `request_all` for a fixed template content. -/
def request_all_pure {ρ : Type} (tmpl : Dict) (a : AdapterInst ρ)
    (date : PyDate) (reverse early : Bool) :
    Except PyError (List FlightInfo) :=
  match airline_pairs a reverse with
  | .error e => .error e
  | .ok pairs =>
    match mapExcept (fun p => request_single_pure tmpl a p.1 p.2 date early)
        pairs with
    | .error e => .error e
    | .ok results => .ok (flatten results)

theorem request_all_collapse {ρ : Type} (σ0 : Store) (a : AdapterInst ρ)
    (dt : PyDate) (rev early : Bool) (href : a.fixedDataRef < σ0.length) :
    ∀ σ, StoreExtends σ0 σ →
      (request_all σ a dt rev early).1
        = request_all_pure (getStore σ0 a.fixedDataRef) a dt rev early ∧
      StoreExtends σ0 (request_all σ a dt rev early).2 := by
  intro σ hσ
  have hcall : ∀ σ' (p : List Char × List Char),
      p ∈ (match airline_pairs a rev with | .error _ => [] | .ok ps => ps) →
      StoreExtends σ0 σ' →
      (request_single σ' a p.1 p.2 dt early).1
        = request_single_pure (getStore σ0 a.fixedDataRef) a p.1 p.2 dt early ∧
      StoreExtends σ' (request_single σ' a p.1 p.2 dt early).2 := by
    intro σ' p _ hext
    constructor
    · rw [request_single_fst]
      rw [hext.2 a.fixedDataRef href]
    · exact request_single_extends σ' a p.1 p.2 dt early
  cases hpairs : airline_pairs a rev with
  | error e =>
    constructor
    · simp [request_all, request_all_pure, hpairs]
    · simp only [request_all, hpairs]
      exact hσ
  | ok pairs =>
    have hmain := mapMStore_collapse
      (fun σ' p => request_single σ' a p.1 p.2 dt early)
      (fun p => request_single_pure (getStore σ0 a.fixedDataRef) a p.1 p.2 dt early)
      σ0 pairs
      (by intro σ' p hp hext; exact hcall σ' p (by rw [hpairs]; exact hp) hext)
      σ hσ
    cases hrun : mapMStore (fun σ' p => request_single σ' a p.1 p.2 dt early)
        σ pairs with
    | mk res σ' =>
      rw [hrun] at hmain
      cases res with
      | error e =>
        constructor
        · simp [request_all, request_all_pure, hpairs, hrun, ← hmain.1]
        · simpa [request_all, hpairs, hrun] using hmain.2
      | ok results =>
        constructor
        · simp [request_all, request_all_pure, hpairs, hrun, ← hmain.1]
        · simpa [request_all, hpairs, hrun] using hmain.2

theorem mapMStore_extends {α β : Type}
    (f : Store → α → Except PyError β × Store) (xs : List α)
    (hf : ∀ σ' x, x ∈ xs → StoreExtends σ' (f σ' x).2) :
    ∀ σ, StoreExtends σ (mapMStore f σ xs).2 := by
  induction xs with
  | nil => intro σ; exact storeExtends_refl σ
  | cons x xs ih =>
    intro σ
    have hx := hf σ x (List.mem_cons_self x xs)
    cases hfx : f σ x with
    | mk res σ' =>
      rw [hfx] at hx
      cases res with
      | error e => simpa [mapMStore, hfx] using hx
      | ok y =>
        have ih' := ih (fun σ'' z hz => hf σ'' z (List.mem_cons_of_mem x hz)) σ'
        cases hrec : mapMStore f σ' xs with
        | mk res2 σ'' =>
          rw [hrec] at ih'
          cases res2 with
          | error e =>
            simpa [mapMStore, hfx, hrec] using storeExtends_trans hx ih'
          | ok ys =>
            simpa [mapMStore, hfx, hrec] using storeExtends_trans hx ih'

theorem request_all_extends {ρ : Type} (σ : Store) (a : AdapterInst ρ)
    (dt : PyDate) (rev early : Bool) :
    StoreExtends σ (request_all σ a dt rev early).2 := by
  cases hpairs : airline_pairs a rev with
  | error e => simp only [request_all, hpairs]; exact storeExtends_refl σ
  | ok pairs =>
    have h := mapMStore_extends
      (fun σ' p => request_single σ' a p.1 p.2 dt early) pairs
      (fun σ' p _ => request_single_extends σ' a p.1 p.2 dt early) σ
    cases hrun : mapMStore (fun σ' p => request_single σ' a p.1 p.2 dt early)
        σ pairs with
    | mk res σ' =>
      rw [hrun] at h
      cases res with
      | error e => simpa [request_all, hpairs, hrun] using h
      | ok results => simpa [request_all, hpairs, hrun] using h

/-- `AirlineRegistry` class-level state: the list of registered classes,
the list of instantiated adapters, and the `done` flag. -/
structure RegState (ρ : Type) where
  classes : List (AdapterClass ρ)
  airlines : List (AdapterInst ρ)
  done : Bool

/-- `AirlineRegistry.instantiate(config)`: a no-op once `done` is set,
otherwise construct one instance of every registered class from the shared
config and set `done`. -/
def instantiate {ρ : Type} (reg : RegState ρ) (config : Config) :
    RegState ρ :=
  if reg.done then reg
  else { reg with
         airlines := reg.classes.map (fun c => constructAdapter c config)
         done := true }

/-- `AirlineRegistry.request_all`: fan out to every instantiated adapter in
registration order and flatten. -/
def registry_request_all {ρ : Type} (σ : Store)
    (airlines : List (AdapterInst ρ)) (date : PyDate)
    (reverse early : Bool) : Except PyError (List FlightInfo) × Store :=
  match mapMStore (fun σ' a => request_all σ' a date reverse early)
      σ airlines with
  | (.error e, σ') => (.error e, σ')
  | (.ok results, σ') => (.ok (flatten results), σ')

/-- The store-free value of the registry fan-out: each adapter's
contribution as a function of the template it reads from the initial
store. -/
def registry_request_all_pure {ρ : Type} (σ0 : Store)
    (airlines : List (AdapterInst ρ)) (date : PyDate)
    (reverse early : Bool) : Except PyError (List FlightInfo) :=
  match mapExcept
      (fun a : AdapterInst ρ =>
        request_all_pure (getStore σ0 a.fixedDataRef) a date reverse early)
      airlines with
  | .error e => .error e
  | .ok results => .ok (flatten results)

theorem registry_request_all_fst {ρ : Type} (σ : Store)
    (airlines : List (AdapterInst ρ)) (dt : PyDate) (rev early : Bool)
    (hrefs : ∀ a ∈ airlines, a.fixedDataRef < σ.length) :
    (registry_request_all σ airlines dt rev early).1
      = registry_request_all_pure σ airlines dt rev early := by
  have hmain := mapMStore_collapse
    (fun σ' a => request_all σ' a dt rev early)
    (fun a : AdapterInst ρ =>
      request_all_pure (getStore σ a.fixedDataRef) a dt rev early)
    σ airlines
    (by
      intro σ' a ha hext
      exact ⟨(request_all_collapse σ a dt rev early (hrefs a ha) σ' hext).1,
        request_all_extends σ' a dt rev early⟩)
    σ (storeExtends_refl σ)
  cases hrun : mapMStore (fun σ' a => request_all σ' a dt rev early)
      σ airlines with
  | mk res σ' =>
    rw [hrun] at hmain
    cases res with
    | error e =>
      simp [registry_request_all, registry_request_all_pure, hrun, ← hmain.1]
    | ok results =>
      simp [registry_request_all, registry_request_all_pure, hrun, ← hmain.1]

/-- The positional parameters of `AirlineBase.request_single` after `self`:
`origin`, `destination`, `date`, `early` — all four are required (none has
a default). -/
def request_single_params : List (List Char) :=
  ["origin".data, "destination".data, "date".data, "early".data]

/-- Python positional-argument binding: a call with a different number of
arguments than required positional parameters raises `TypeError` before
the body runs. -/
def bindPositional (params : List (List Char)) (args : List PyVal) :
    Except PyError (List (List Char × PyVal)) :=
  if params.length = args.length then .ok (params.zip args)
  else .error .typeError

/-- A call `airline.request_single(...args)` through Python's calling
convention: bind the arguments against the method's parameter list, then
run the body. -/
def call_request_single {ρ : Type} (σ : Store) (a : AdapterInst ρ)
    (args : List PyVal) : Except PyError (List FlightInfo) × Store :=
  match bindPositional request_single_params args with
  | .error e => (.error e, σ)
  | .ok _ =>
    match args with
    | [.vstr o, .vstr d, .vdate dt, .vbool e] => request_single σ a o d dt e
    | _ => (.error .typeError, σ)

/-- `AirlineRegistry.request_single(origin, destination, date)`: fan the
one pair out to every instantiated adapter and flatten.  The source passes
only three arguments to each adapter's four-parameter `request_single`. -/
def registry_request_single {ρ : Type} (σ : Store)
    (airlines : List (AdapterInst ρ)) (origin destination : List Char)
    (date : PyDate) : Except PyError (List FlightInfo) × Store :=
  match mapMStore
      (fun σ' a => call_request_single σ' a
        [.vstr origin, .vstr destination, .vdate date])
      σ airlines with
  | (.error e, σ') => (.error e, σ')
  | (.ok results, σ') => (.ok (flatten results), σ')

/-- `Weekender._parse_time`: split `HH:MM` on the colon, unpack exactly two
parts, convert via `int`, and build a `time`. -/
def weekender_parse_time (s : List Char) : Except PyError PyTime :=
  match splitChar ':' s with
  | [hs, ms] => do
    let h ← pyInt hs
    let m ← pyInt ms
    mkTime h m
  | _ => .error .valueError

/-- The `Weekender` instance state relevant to queries: the two parsed
time bounds. -/
structure Weekender where
  leave_after : PyTime
  leave_before : PyTime
deriving DecidableEq, Repr

/-- `Weekender.__init__`: point at the registry, run `instantiate(config)`,
then parse `config['general']['leave_after']` and
`config['general']['leave_before']`.  The registry mutation happens before
the time parsing, so it survives even when parsing raises; an exception in
`__init__` leaves no `Weekender` object. -/
def weekender_init {ρ : Type} (reg : RegState ρ) (config : Config) :
    Except PyError Weekender × RegState ρ :=
  let reg' := instantiate reg config
  let w : Except PyError Weekender :=
    match assocGet config "general".data with
    | .error e => .error e
    | .ok gen1 =>
      match assocGet gen1 "leave_after".data with
      | .error e => .error e
      | .ok sa =>
        match weekender_parse_time sa with
        | .error e => .error e
        | .ok la =>
          match assocGet config "general".data with
          | .error e => .error e
          | .ok gen2 =>
            match assocGet gen2 "leave_before".data with
            | .error e => .error e
            | .ok sb =>
              match weekender_parse_time sb with
              | .error e => .error e
              | .ok lb => .ok ⟨la, lb⟩
  (w, reg')

/-- `operator.gt` on the values this program compares (`datetime.time`
bounds against record departure times); comparing a time against any other
kind of value raises `TypeError`, as in Python. -/
def pyGtVal (x y : PyVal) : Except PyError Bool :=
  match x, y with
  | .vtime a, .vtime b => .ok (timeLtB b a)
  | _, _ => .error .typeError

/-- `operator.lt` on the same values. -/
def pyLtVal (x y : PyVal) : Except PyError Bool :=
  match x, y with
  | .vtime a, .vtime b => .ok (timeLtB a b)
  | _, _ => .error .typeError

/-- A filtering list comprehension `[x for x in xs if p x]` whose predicate
may raise: tests run left to right and the first exception propagates. -/
def listCompFilter {α : Type} (p : α → Except PyError Bool) :
    List α → Except PyError (List α)
  | [] => .ok []
  | x :: xs =>
    match p x with
    | .error e => .error e
    | .ok b =>
      match listCompFilter p xs with
      | .error e => .error e
      | .ok r => .ok (if b then x :: r else r)

/-- `Weekender.request(date, cmp, filter_bound, reverse, early)`: run the
registry's all-pairs query, then keep the records whose `depart_time` slot
compares against the bound. -/
def weekender_request {ρ : Type} (σ : Store)
    (airlines : List (AdapterInst ρ)) (date : PyDate)
    (cmp : PyVal → PyVal → Except PyError Bool) (filter_bound : PyVal)
    (reverse early : Bool) : Except PyError (List FlightInfo) × Store :=
  match registry_request_all σ airlines date reverse early with
  | (.error e, σ') => (.error e, σ')
  | (.ok result, σ') =>
    match listCompFilter (fun fi => cmp fi.depart_time filter_bound) result with
    | .error e => (.error e, σ')
    | .ok res => (.ok res, σ')

/-- `Weekender.request_with_next(date, reverse)` on a cache miss: the
primary-day query with `operator.gt` against `leave_after` and
`early=False`, then the `date + timedelta(days=1)` query with `operator.lt`
against `leave_before` and `early=True`, flattened in that order. -/
def request_with_next {ρ : Type} (σ : Store)
    (airlines : List (AdapterInst ρ)) (w : Weekender) (date : PyDate)
    (reverse : Bool) : Except PyError (List FlightInfo) × Store :=
  match weekender_request σ airlines date pyGtVal (.vtime w.leave_after)
      reverse false with
  | (.error e, σ1) => (.error e, σ1)
  | (.ok day, σ1) =>
    match weekender_request σ1 airlines (date + 1) pyLtVal
        (.vtime w.leave_before) reverse true with
    | (.error e, σ2) => (.error e, σ2)
    | (.ok day_after, σ2) => (.ok (flatten [day, day_after]), σ2)

/-- The record passes the primary-day window: its `depart_time` slot holds
a time strictly after the bound. -/
def departsAfter (bound : PyTime) (fi : FlightInfo) : Bool :=
  match fi.depart_time with
  | .vtime t => timeLtB bound t
  | _ => false

/-- The record passes the early-leg window: its `depart_time` slot holds a
time strictly before the bound. -/
def departsBefore (bound : PyTime) (fi : FlightInfo) : Bool :=
  match fi.depart_time with
  | .vtime t => timeLtB t bound
  | _ => false

theorem listCompFilter_gt (b : PyTime) (xs : List FlightInfo)
    (h : ∀ fi ∈ xs, ∃ t, fi.depart_time = .vtime t) :
    listCompFilter (fun fi => pyGtVal fi.depart_time (.vtime b)) xs
      = .ok (xs.filter (departsAfter b)) := by
  induction xs with
  | nil => rfl
  | cons fi xs ih =>
    obtain ⟨t, ht⟩ := h fi (List.mem_cons_self fi xs)
    have ih' := ih (fun g hg => h g (List.mem_cons_of_mem fi hg))
    have hhead : pyGtVal fi.depart_time (.vtime b) = .ok (timeLtB b t) := by
      rw [ht]; rfl
    simp only [listCompFilter, hhead, ih']
    cases hb : timeLtB b t <;> simp [departsAfter, List.filter_cons, ht, hb]

theorem listCompFilter_lt (b : PyTime) (xs : List FlightInfo)
    (h : ∀ fi ∈ xs, ∃ t, fi.depart_time = .vtime t) :
    listCompFilter (fun fi => pyLtVal fi.depart_time (.vtime b)) xs
      = .ok (xs.filter (departsBefore b)) := by
  induction xs with
  | nil => rfl
  | cons fi xs ih =>
    obtain ⟨t, ht⟩ := h fi (List.mem_cons_self fi xs)
    have ih' := ih (fun g hg => h g (List.mem_cons_of_mem fi hg))
    have hhead : pyLtVal fi.depart_time (.vtime b) = .ok (timeLtB t b) := by
      rw [ht]; rfl
    simp only [listCompFilter, hhead, ih']
    cases hb : timeLtB t b <;> simp [departsBefore, List.filter_cons, ht, hb]

/-- An HTML element inside a Southwest result row, abstracted to the one
operation the code performs on it: `elem_sel_to_text(elem, sel, sep)`,
joining the text contents of the sub-elements matching a CSS selector. -/
def SWElem : Type := List Char → List Char → List Char

/-- A Southwest result row: `row.xpath(\x22td\x22)`, the list of top-level
table cells. -/
structure SWRow where
  tds : List SWElem

/-- `Southwest._col_time`: join the `.time` text and the `.indicator` text
with a space and parse the 12-hour string. -/
def sw_col_time (col : SWElem) : Except PyError PyTime :=
  parse_time_string (col ".time".data "".data ++ ' ' :: col ".indicator".data "".data)

/-- `Southwest._col_flight`: carrier code, a space, and the segment codes
found under `.bugLinkText` joined with slashes. -/
def sw_col_flight (col : SWElem) : List Char :=
  "WN".data ++ ' ' :: col ".bugLinkText".data "/".data

/-- `Southwest._col_fare`: strip spaces, newlines, tabs and the dollar sign
from the `.product_price` text; an empty remainder means `None` (sold-out
fare cell present but empty), otherwise `int(...)` (which raises on
non-numeric text). -/
def sw_col_fare (col : SWElem) : Except PyError PyVal :=
  let fare := stripChars " \n\t$".data (col ".product_price".data "".data)
  if fare = [] then .ok .vnone
  else (pyInt fare).map .vint

/-- `Southwest.extract_row_to_flightinfo`: fewer than 8 top-level cells
means the Wanna Get Away fare column is missing entirely (all fares sold
out) and the row yields no record.  Otherwise the interesting columns are
0, 1, 2 and 7 in enumeration order, and
`FlightInfo(*([origin, destination, date, early] + extracted))` fills the
tuple slots positionally — the queried date lands in the third slot
(`early`) and the early flag in the fourth (`depart_date`), exactly as the
source does.  A record whose fare slot is `None` is dropped. -/
def southwest_extract (row : SWRow) (origin destination : List Char)
    (date : PyDate) (early : Bool) : Except PyError (Option FlightInfo) :=
  if row.tds.length < 8 then .ok none
  else
    match row.tds with
    | c0 :: c1 :: c2 :: _ :: _ :: _ :: _ :: c7 :: _ => do
      let t0 ← sw_col_time c0
      let t1 ← sw_col_time c1
      let fare ← sw_col_fare c7
      let fi : FlightInfo :=
        ⟨origin, destination, .vdate date, .vbool early,
         .vtime t0, .vtime t1, .vstr (sw_col_flight c2), fare⟩
      if fi.fare = .vnone then pure none else pure (some fi)
    | _ => .error .indexError

/-- A JetBlue result row, abstracted to the element queries the code
performs on it: the `.from time` text contents, the `.to time` text
contents, the `.flight-number` text contents, and the joined
`.fare.non-refund .label` text. -/
structure JBRow where
  fromTimes : List (List Char)
  toTimes : List (List Char)
  flightNos : List (List Char)
  fareText : List Char

/-- Python list indexing `xs[i]`, raising `IndexError` when out of range. -/
def listIndex {α : Type} (xs : List α) (i : Nat) : Except PyError α :=
  match xs.get? i with
  | some x => .ok x
  | none => .error .indexError

/-- Python `xs[-1]`, raising `IndexError` on the empty list. -/
def listLast {α : Type} (xs : List α) : Except PyError α :=
  match xs.getLast? with
  | some x => .ok x
  | none => .error .indexError

/-- `JetBlue.extract_row_to_flightinfo`: departure time from the first
`.from time` element, arrival time from the last `.to time` element,
flight numbers slash-joined, and the fare read with
`int(text.strip(' \r\n\t$'))` — which raises `ValueError` when the
stripped fare text is empty, there is no sold-out check.  The positional
`FlightInfo(origin, destination, date, early, ...)` construction again
puts the date in the `early` slot and the flag in `depart_date`. -/
def jetblue_extract (row : JBRow) (origin destination : List Char)
    (date : PyDate) (early : Bool) : Except PyError (Option FlightInfo) := do
  let depS ← listIndex row.fromTimes 0
  let depart_time ← parse_time_string depS
  let arrS ← listLast row.toTimes
  let arrive_time ← parse_time_string arrS
  let nums ← mapExcept (fun s => listIndex (splitChar ' ' s) 1) row.flightNos
  let flight_number := "B6".data ++ ' ' :: joinSep '/' nums
  let fare ← pyInt (stripChars " \r\n\t$".data row.fareText)
  pure (some ⟨origin, destination, .vdate date, .vbool early,
    .vtime depart_time, .vtime arrive_time, .vstr flight_number, .vint fare⟩)

/-- A Southwest cell answering the selector queries used by the code with
fixed strings (a concrete HTML fragment for tests). -/
def swCell (timeText indicatorText flightText fareText : List Char) : SWElem :=
  fun sel _ =>
    if sel = ".time".data then timeText
    else if sel = ".indicator".data then indicatorText
    else if sel = ".bugLinkText".data then flightText
    else if sel = ".product_price".data then fareText
    else []

/-- A concrete 8-column Southwest row: departs 6:00 PM, arrives 7:05 PM,
flight 123, Wanna Get Away fare `$120`. -/
def swRowFull : SWRow :=
  { tds :=
      [swCell "6:00".data "PM".data [] [],
       swCell "7:05".data "PM".data [] [],
       swCell [] [] "123".data [],
       swCell [] [] [] [],
       swCell [] [] [] [],
       swCell [] [] [] [],
       swCell [] [] [] [],
       swCell [] [] [] "$120".data] }

/-- The same row with an empty Wanna Get Away price cell (sold out). -/
def swRowEmptyFare : SWRow :=
  { tds :=
      [swCell "6:00".data "PM".data [] [],
       swCell "7:05".data "PM".data [] [],
       swCell [] [] "123".data [],
       swCell [] [] [] [],
       swCell [] [] [] [],
       swCell [] [] [] [],
       swCell [] [] [] [],
       swCell [] [] [] "$".data] }

/-- A 7-column Southwest row: the fare column is missing entirely. -/
def swRowShort : SWRow :=
  { tds :=
      [swCell "6:00".data "PM".data [] [],
       swCell "7:05".data "PM".data [] [],
       swCell [] [] "123".data [],
       swCell [] [] [] [],
       swCell [] [] [] [],
       swCell [] [] [] [],
       swCell [] [] [] []] }

/-- A concrete JetBlue row whose fare label is just a dollar sign, so the
stripped fare text is empty. -/
def jbRowEmptyFare : JBRow :=
  { fromTimes := ["7:15 AM".data]
    toTimes := ["9:40 AM".data]
    flightNos := ["Flight 615".data]
    fareText := "$".data }

/-! ## Concrete fixtures used by witnesses and counterexamples -/

/-- A trivial instantiated adapter over a unit row type, with the
Southwest wiring and a transport that returns no rows. -/
def unitAdapter : AdapterInst Unit :=
  { className := "Southwest".data
    config := [("Southwest".data,
      [("origins".data, "SFO".data), ("destinations".data, "LAX".data)])]
    fixedDataRef := 0
    dynamic_fields :=
      ⟨"originAirport".data, "destinationAirport".data,
       "outboundDateString".data⟩
    strftimeFn := fun _ => "02/20/15".data
    netFn := fun _ _ _ _ _ => .ok []
    extractFn := fun _ _ _ _ _ => .ok none }

/-- Like `unitAdapter` but with two configured origins. -/
def okAdapter : AdapterInst Unit :=
  { unitAdapter with
    config := [("Southwest".data,
      [("origins".data, "SFO,OAK".data), ("destinations".data, "LAX".data)])] }

/-- Like `unitAdapter` but with a transport that fails. -/
def errAdapter : AdapterInst Unit :=
  { unitAdapter with netFn := fun _ _ _ _ _ => .error .valueError }

/-- A registered Southwest-shaped class over a unit row type. -/
def swClassStub : AdapterClass Unit :=
  { className := "Southwest".data
    fixedDataRef := 0
    dynamic_fields :=
      ⟨"originAirport".data, "destinationAirport".data,
       "outboundDateString".data⟩
    strftimeFn := fun _ => "02/20/15".data
    netFn := fun _ _ _ _ _ => .ok []
    extractFn := fun _ _ _ _ _ => .ok none }

/-- A registry that has `swClassStub` registered but nothing instantiated. -/
def regStart : RegState Unit := ⟨[swClassStub], [], false⟩

/-- Well-formed time bounds, but no `Southwest` provider section. -/
def cfgNoProvider : Config :=
  [("general".data,
    [("leave_after".data, "17:00".data), ("leave_before".data, "10:00".data)])]

/-- A malformed `leave_after` (no colon, so tuple unpacking raises). -/
def cfgBadTime : Config :=
  [("general".data,
    [("leave_after".data, "2500".data), ("leave_before".data, "10:00".data)])]

/-! ## Claim theorems -/

/-- C6: the shared 12-hour time-string parser maps "12:00 AM" to 0:00,
"12:00 PM" to 12:00, "1:05 PM" to 13:05, and every "h:MM AM" with h in
1..11 to hour h with the minutes preserved. -/
theorem sharedTimeParser_meridian_conversion :
    parse_time_string "12:00 AM".data = .ok ⟨0, 0⟩
    ∧ parse_time_string "12:00 PM".data = .ok ⟨12, 0⟩
    ∧ parse_time_string "1:05 PM".data = .ok ⟨13, 5⟩
    ∧ ∀ h : Nat, h < 12 → 1 ≤ h → ∀ m : Nat, m < 60 →
        parse_time_string (hourDigits h ++ ':' :: minuteDigits m ++ [' ', 'A', 'M'])
          = .ok ⟨h, m⟩ := by
  decide

/-- Witness for C6 at a concrete in-range hour and minute. -/
theorem sharedTimeParser_meridian_conversion_witness :
    parse_time_string (hourDigits 7 ++ ':' :: minuteDigits 30 ++ [' ', 'A', 'M'])
      = .ok ⟨7, 30⟩ :=
  sharedTimeParser_meridian_conversion.2.2.2 7 (by decide) (by decide) 30 (by decide)

/-- C7: `AirlineRegistry.instantiate` is idempotent — after a first call
with any config, a second call with any config is a no-op on the registry
state, leaving the originally constructed instances untouched. -/
theorem registryInstantiate_idempotent {ρ : Type} (reg : RegState ρ)
    (c1 c2 : Config) :
    instantiate (instantiate reg c1) c2 = instantiate reg c1 := by
  by_cases h : reg.done
  · simp [instantiate, h]
  · simp [instantiate, h]

/-- C10: `AirlineBase.request_single` never mutates existing adapter
state: the fixed-field template is copied into a fresh dict before the
three dynamic fields are merged in, so every dict object that existed
before the call — in particular the adapter's `fixed_data` template — is
unchanged afterwards (the adapter's `dynamic_fields` and `config` are
immutable record components of `AdapterInst` and are not threaded at
all). -/
theorem requestSingle_preserves_adapter_state {ρ : Type} (σ : Store)
    (a : AdapterInst ρ) (o d : List Char) (dt : PyDate) (e : Bool)
    (r : Nat) (hr : r < σ.length) :
    getStore ((request_single σ a o d dt e).2) r = getStore σ r :=
  (request_single_extends σ a o d dt e).2 r hr

/-- Witness for C10 on a concrete store and adapter. -/
theorem requestSingle_preserves_adapter_state_witness :
    0 < ([[("fareType".data, PyVal.vstr "DOLLARS".data)]] : Store).length
    ∧ getStore ((request_single [[("fareType".data, PyVal.vstr "DOLLARS".data)]]
        unitAdapter "SFO".data "LAX".data 0 false).2) 0
      = getStore [[("fareType".data, PyVal.vstr "DOLLARS".data)]] 0 :=
  ⟨by decide,
   requestSingle_preserves_adapter_state
     [[("fareType".data, PyVal.vstr "DOLLARS".data)]]
     unitAdapter "SFO".data "LAX".data 0 false 0 (by decide)⟩

/-- C5 (code bug): `AirlineRegistry.request_single` passes only
`(origin, destination, date)` to each adapter's `request_single`, whose
fourth positional parameter `early` has no default, so with at least one
instantiated adapter the call raises `TypeError` instead of returning the
concatenated records, and the store is untouched. -/
theorem registryRequestSingle_raises_typeError {ρ : Type} (σ : Store)
    (airlines : List (AdapterInst ρ)) (o d : List Char) (dt : PyDate)
    (hne : airlines ≠ []) :
    registry_request_single σ airlines o d dt = (.error .typeError, σ) := by
  cases airlines with
  | nil => exact absurd rfl hne
  | cons a rest =>
    simp [registry_request_single, mapMStore, call_request_single,
      bindPositional, request_single_params]

/-- Witness for C5 on a concrete adapter list. -/
theorem registryRequestSingle_raises_typeError_witness :
    registry_request_single [] [unitAdapter] "SFO".data "LAX".data 0
      = (.error .typeError, []) :=
  registryRequestSingle_raises_typeError [] [unitAdapter] "SFO".data
    "LAX".data 0 (List.cons_ne_nil _ _)

/-- C2 (code bug): a successful Southwest extraction fills the
`FlightInfo` slots positionally from
`[origin, destination, date, early] + ...`, so the queried date lands in
the `early` slot and the early flag in the `depart_date` slot — the
record's calendar-date slot does not hold the queried date. -/
theorem southwestExtract_date_early_slots_swapped :
    ∃ fi, southwest_extract swRowFull "SFO".data "LAX".data 42 true
        = .ok (some fi)
      ∧ fi.early = PyVal.vdate 42
      ∧ fi.depart_date = PyVal.vbool true
      ∧ fi.depart_date ≠ PyVal.vdate 42
      ∧ fi.early ≠ PyVal.vbool true :=
  ⟨⟨"SFO".data, "LAX".data, .vdate 42, .vbool true, .vtime ⟨18, 0⟩,
    .vtime ⟨19, 5⟩, .vstr "WN 123".data, .vint 120⟩, by decide⟩

/-- C3 (code bug): Southwest returns absent both for a row short of the
fare column and for an empty fare cell, but JetBlue's extraction calls
`int(...)` on the stripped fare text with no sold-out check, so a JetBlue
row whose fare label is empty after stripping raises `ValueError` instead
of yielding absent. -/
theorem jetblueExtract_raises_on_fareless_row :
    jetblue_extract jbRowEmptyFare "JFK".data "BOS".data 7 false
      = .error .valueError
    ∧ southwest_extract swRowEmptyFare "SFO".data "LAX".data 42 false
      = .ok none
    ∧ southwest_extract swRowShort "SFO".data "LAX".data 42 false
      = .ok none := by
  decide

/-- C1: on a cache miss, `Weekender.request_with_next(date, reverse)`
returns exactly the records of the registry's all-pairs query for `date`
(early flag false) whose `depart_time` is strictly after `leave_after`,
followed by the records of the query for `date + 1 day` (early flag true)
whose `depart_time` is strictly before `leave_before`, in that order. -/
theorem requestWithNext_concat_of_filtered_days {ρ : Type} (σ : Store)
    (airlines : List (AdapterInst ρ)) (w : Weekender) (dt : PyDate)
    (rev : Bool) (xs ys : List FlightInfo) (σ1 σ2 : Store)
    (h1 : registry_request_all σ airlines dt rev false = (.ok xs, σ1))
    (h2 : registry_request_all σ1 airlines (dt + 1) rev true = (.ok ys, σ2))
    (hx : ∀ fi ∈ xs, ∃ t, fi.depart_time = PyVal.vtime t)
    (hy : ∀ fi ∈ ys, ∃ t, fi.depart_time = PyVal.vtime t) :
    request_with_next σ airlines w dt rev
      = (.ok (xs.filter (departsAfter w.leave_after)
          ++ ys.filter (departsBefore w.leave_before)), σ2) := by
  have f1 := listCompFilter_gt w.leave_after xs hx
  have f2 := listCompFilter_lt w.leave_before ys hy
  simp [request_with_next, weekender_request, h1, h2, f1, f2, flatten]

/-- Witness for C1 on the empty adapter list. -/
theorem requestWithNext_concat_of_filtered_days_witness :
    registry_request_all ([] : Store) ([] : List (AdapterInst Unit)) 0
        false false = (.ok [], [])
    ∧ registry_request_all ([] : Store) ([] : List (AdapterInst Unit)) 1
        false true = (.ok [], [])
    ∧ request_with_next ([] : Store) ([] : List (AdapterInst Unit))
        ⟨⟨17, 0⟩, ⟨10, 0⟩⟩ 0 false = (.ok [], []) :=
  ⟨rfl, rfl,
   requestWithNext_concat_of_filtered_days ([] : Store)
     ([] : List (AdapterInst Unit)) ⟨⟨17, 0⟩, ⟨10, 0⟩⟩ 0 false [] [] [] []
     rfl rfl (by simp) (by simp)⟩

/-- C4: `AirlineBase.request_all` iterates the cartesian product of the
configured origins and destinations (swapped destination-origin pairs when
`reverse` is set) — N×M pairs, one `request_single` call each, in pair
order — and flattens the per-call results in that order, so a fully
successful run has length equal to the sum of the per-call record
counts. -/
theorem requestAll_cartesian_product_calls {ρ : Type} (σ : Store)
    (a : AdapterInst ρ) (dt : PyDate) (rev early : Bool)
    (os ds : List (List Char)) (href : a.fixedDataRef < σ.length)
    (ho : origins a = .ok os) (hd : destinations a = .ok ds) :
    (if rev then pyProduct ds os else pyProduct os ds).length
      = os.length * ds.length
    ∧ (request_all σ a dt rev early).1
        = (match mapExcept
              (fun p => request_single_pure (getStore σ a.fixedDataRef) a
                p.1 p.2 dt early)
              (if rev then pyProduct ds os else pyProduct os ds) with
           | .error e => .error e
           | .ok results => .ok (flatten results))
    ∧ ∀ ls, mapExcept
          (fun p => request_single_pure (getStore σ a.fixedDataRef) a
            p.1 p.2 dt early)
          (if rev then pyProduct ds os else pyProduct os ds) = .ok ls →
        (request_all σ a dt rev early).1 = .ok (flatten ls)
        ∧ (flatten ls).length = (ls.map List.length).sum := by
  have hpairs : airline_pairs a rev
      = .ok (if rev then pyProduct ds os else pyProduct os ds) := by
    cases rev <;> simp [airline_pairs, ho, hd]
  have hfst : (request_all σ a dt rev early).1
      = (match mapExcept
            (fun p => request_single_pure (getStore σ a.fixedDataRef) a
              p.1 p.2 dt early)
            (if rev then pyProduct ds os else pyProduct os ds) with
         | .error e => .error e
         | .ok results => .ok (flatten results)) := by
    rw [(request_all_collapse σ a dt rev early href σ (storeExtends_refl σ)).1,
      request_all_pure, hpairs]
  refine ⟨?_, hfst, ?_⟩
  · cases rev <;> simp [length_pyProduct, Nat.mul_comm]
  · intro ls hls
    refine ⟨?_, by simp [flatten]⟩
    rw [hfst, hls]

/-- Witness for C4: two origins, one destination, forward order. -/
theorem requestAll_cartesian_product_calls_witness :
    okAdapter.fixedDataRef < ([[]] : Store).length
    ∧ origins okAdapter = .ok ["SFO".data, "OAK".data]
    ∧ destinations okAdapter = .ok ["LAX".data]
    ∧ (if false then pyProduct ["LAX".data] ["SFO".data, "OAK".data]
        else pyProduct ["SFO".data, "OAK".data] ["LAX".data]).length
      = 2 * 1 :=
  ⟨by decide, by decide, by decide,
   (requestAll_cartesian_product_calls [[]] okAdapter 7 false false
     ["SFO".data, "OAK".data] ["LAX".data] (by decide) (by decide)
     (by decide)).1⟩

/-- C8: during a registry fan-out via `request_all`, an error raised by
any one adapter's query aborts the whole call — the registry returns an
error rather than any records. -/
theorem registryFanout_aborts_on_adapter_error {ρ : Type} (σ : Store)
    (airlines : List (AdapterInst ρ)) (dt : PyDate) (rev early : Bool)
    (a0 : AdapterInst ρ) (err : PyError)
    (hrefs : ∀ a ∈ airlines, a.fixedDataRef < σ.length)
    (ha : a0 ∈ airlines)
    (herr : request_all_pure (getStore σ a0.fixedDataRef) a0 dt rev early
      = .error err) :
    ∃ e, (registry_request_all σ airlines dt rev early).1 = .error e := by
  rw [registry_request_all_fst σ airlines dt rev early hrefs]
  obtain ⟨e, he⟩ := mapExcept_error_of_mem
    (fun a : AdapterInst ρ =>
      request_all_pure (getStore σ a.fixedDataRef) a dt rev early)
    airlines a0 ha err herr
  exact ⟨e, by simp [registry_request_all_pure, he]⟩

/-- Witness for C8: one adapter whose transport fails. -/
theorem registryFanout_aborts_on_adapter_error_witness :
    (∀ a ∈ [errAdapter], a.fixedDataRef < ([[]] : Store).length)
    ∧ errAdapter ∈ [errAdapter]
    ∧ request_all_pure (getStore [[]] errAdapter.fixedDataRef) errAdapter
        5 false false = .error .valueError
    ∧ ∃ e, (registry_request_all [[]] [errAdapter] 5 false false).1
        = .error e :=
  ⟨by intro a ha; rw [List.mem_singleton] at ha; subst ha; decide,
   List.mem_singleton.mpr rfl,
   by decide,
   registryFanout_aborts_on_adapter_error [[]] [errAdapter] 5 false false
     errAdapter .valueError
     (by intro a ha; rw [List.mem_singleton] at ha; subst ha; decide)
     (List.mem_singleton.mpr rfl) (by decide)⟩

/-- C9 (amended): a malformed `leave_after` or `leave_before` time string
makes `Weekender.__init__` raise at construction time, so it never
surfaces per-query; the missing-provider-section half of the original
claim does not hold (see the counterexample). -/
theorem weekenderInit_fails_fast_on_malformed_time {ρ : Type}
    (reg : RegState ρ) (cfg : Config)
    (gen : List (List Char × List Char)) (err : PyError)
    (hg : assocGet cfg "general".data = .ok gen)
    (hcase :
      (∃ sa, assocGet gen "leave_after".data = .ok sa
        ∧ weekender_parse_time sa = .error err)
      ∨ (∃ sa t sb, assocGet gen "leave_after".data = .ok sa
        ∧ weekender_parse_time sa = .ok t
        ∧ assocGet gen "leave_before".data = .ok sb
        ∧ weekender_parse_time sb = .error err)) :
    (weekender_init reg cfg).1 = .error err := by
  rcases hcase with ⟨sa, ha, hp⟩ | ⟨sa, t, sb, ha, hp, hb, hq⟩
  · simp [weekender_init, hg, ha, hp]
  · simp [weekender_init, hg, ha, hp, hb, hq]

/-- Witness for C9's amended theorem: `leave_after = "2500"` has no colon,
so the tuple unpacking in `_parse_time` raises `ValueError` during
construction. -/
theorem weekenderInit_fails_fast_on_malformed_time_witness :
    assocGet cfgBadTime "general".data
      = .ok [("leave_after".data, "2500".data),
             ("leave_before".data, "10:00".data)]
    ∧ weekender_parse_time "2500".data = .error .valueError
    ∧ (weekender_init (⟨[], [], false⟩ : RegState Unit) cfgBadTime).1
      = .error .valueError :=
  ⟨by decide, by decide,
   weekenderInit_fails_fast_on_malformed_time
     (⟨[], [], false⟩ : RegState Unit) cfgBadTime
     [("leave_after".data, "2500".data), ("leave_before".data, "10:00".data)]
     .valueError (by decide)
     (Or.inl ⟨"2500".data, by decide, by decide⟩)⟩

/-- C9 (counterexample): with well-formed time bounds but no `Southwest`
provider section, `Weekender` construction succeeds — the missing section
is not detected at startup — and the failure surfaces only per-query, as a
`KeyError` raised inside the registry fan-out when the adapter's
`origins` property is first read. -/
theorem missingProviderSection_fails_per_query_not_at_startup :
    (weekender_init regStart cfgNoProvider).1
      = .ok ⟨⟨17, 0⟩, ⟨10, 0⟩⟩
    ∧ (request_with_next [[]]
        ((weekender_init regStart cfgNoProvider).2).airlines
        ⟨⟨17, 0⟩, ⟨10, 0⟩⟩ 100 false).1
      = .error .keyError := by
  constructor
  · decide
  · decide
